import Mathlib

/-!
Verification of the OskarBit multi-stream motion pipeline (src/sketch.js and the
ingestion scheduler of the graph front-end) against its natural-language
specification.  JavaScript numbers are modelled by `JSNum`: NaN, the two
infinities, and finite values as exact rationals.  `Math.sqrt` is modelled by an
exact square root that agrees with the JS floating-point result on
perfect-square rationals; every concrete input evaluated in this development
has a perfect-square radicand.  Timestamps (`Date.now()`) are injected as
natural-number parameters.
-/

namespace OskarBit

/-- JavaScript number: NaN, +Infinity, -Infinity, or a finite value
(idealised as an exact rational). -/
inductive JSNum where
  | nan : JSNum
  | inf : JSNum
  | ninf : JSNum
  | fin : ℚ → JSNum
deriving DecidableEq

/-- JavaScript `isNaN` on a number. -/
def jsIsNaN : JSNum → Bool
  | .nan => true
  | _ => false

/-- JavaScript addition. -/
def jsAdd : JSNum → JSNum → JSNum
  | .nan, _ => .nan
  | _, .nan => .nan
  | .inf, .ninf => .nan
  | .ninf, .inf => .nan
  | .inf, _ => .inf
  | _, .inf => .inf
  | .ninf, _ => .ninf
  | _, .ninf => .ninf
  | .fin a, .fin b => .fin (a + b)

/-- JavaScript subtraction. -/
def jsSub : JSNum → JSNum → JSNum
  | .nan, _ => .nan
  | _, .nan => .nan
  | .inf, .inf => .nan
  | .ninf, .ninf => .nan
  | .inf, _ => .inf
  | .ninf, _ => .ninf
  | _, .inf => .ninf
  | _, .ninf => .inf
  | .fin a, .fin b => .fin (a - b)

/-- JavaScript multiplication. -/
def jsMul : JSNum → JSNum → JSNum
  | .nan, _ => .nan
  | _, .nan => .nan
  | .inf, .inf => .inf
  | .inf, .ninf => .ninf
  | .ninf, .inf => .ninf
  | .ninf, .ninf => .inf
  | .inf, .fin b => if b = 0 then .nan else if 0 < b then .inf else .ninf
  | .fin a, .inf => if a = 0 then .nan else if 0 < a then .inf else .ninf
  | .ninf, .fin b => if b = 0 then .nan else if 0 < b then .ninf else .inf
  | .fin a, .ninf => if a = 0 then .nan else if 0 < a then .ninf else .inf
  | .fin a, .fin b => .fin (a * b)

/-- JavaScript division (signed zero collapsed to 0, irrelevant here). -/
def jsDiv : JSNum → JSNum → JSNum
  | .nan, _ => .nan
  | _, .nan => .nan
  | .inf, .inf => .nan
  | .inf, .ninf => .nan
  | .ninf, .inf => .nan
  | .ninf, .ninf => .nan
  | .inf, .fin b => if 0 ≤ b then .inf else .ninf
  | .ninf, .fin b => if 0 ≤ b then .ninf else .inf
  | .fin _, .inf => .fin 0
  | .fin _, .ninf => .fin 0
  | .fin a, .fin b =>
      if b = 0 then (if a = 0 then .nan else if 0 < a then .inf else .ninf)
      else .fin (a / b)

/-- Fueled integer square root (floor), structurally recursive so the kernel
can evaluate it: isqrt n is derived from isqrt (n / 4) by the standard
doubling step; any fuel of at least log4 n suffices, and n itself is ample. -/
def isqrtFuel : ℕ → ℕ → ℕ
  | 0, _ => 0
  | f + 1, n =>
      if n < 2 then n
      else
        let r := 2 * isqrtFuel f (n / 4)
        if (r + 1) * (r + 1) ≤ n then r + 1 else r

/-- Integer square root (floor) by fueled recursion. -/
def natSqrt (n : ℕ) : ℕ := isqrtFuel n n

/-- Exact square root of a rational, via integer square roots of numerator and
denominator; agrees with the real square root exactly on perfect-square
rationals (the only inputs evaluated concretely in this development). -/
def ratSqrt (q : ℚ) : ℚ :=
  (natSqrt q.num.toNat : ℚ) / (natSqrt q.den : ℚ)

/-- JavaScript `Math.sqrt`. -/
def jsSqrt : JSNum → JSNum
  | .nan => .nan
  | .inf => .inf
  | .ninf => .nan
  | .fin q => if q < 0 then .nan else .fin (ratSqrt q)

/-- JavaScript strict less-than (false whenever either side is NaN). -/
def jsLt : JSNum → JSNum → Bool
  | .nan, _ => false
  | _, .nan => false
  | .ninf, .ninf => false
  | .ninf, _ => true
  | _, .ninf => false
  | .inf, _ => false
  | _, .inf => true
  | .fin a, .fin b => decide (a < b)

/-- JavaScript strict greater-than. -/
def jsGt (a b : JSNum) : Bool := jsLt b a

/-- JavaScript greater-or-equal (false whenever either side is NaN). -/
def jsGe : JSNum → JSNum → Bool
  | .nan, _ => false
  | _, .nan => false
  | a, b => !(jsLt a b)

/-- JavaScript `Math.max` (NaN if either argument is NaN). -/
def jsMax (a b : JSNum) : JSNum :=
  if jsIsNaN a || jsIsNaN b then .nan else if jsLt a b then b else a

/-- Per-stream state of `DataStream` in src/sketch.js (the UI-only `color`
field is omitted; every field read or written by the state machine is kept). -/
structure DataStream where
  id : ℕ
  lastUpdate : ℕ
  x : JSNum
  y : JSNum
  z : JSNum
  rawX : JSNum
  rawY : JSNum
  rawZ : JSNum
  calibrating : Bool
  calibrationData : List (JSNum × JSNum × JSNum)
  baseX : JSNum
  baseY : JSNum
  baseZ : JSNum
  deadzone : JSNum
  calibrationNoise : JSNum
  motionThresholds : List JSNum
  motion : ℕ
  distance : JSNum
  calibrationQuality : String
  lastMotionTime : ℕ
deriving DecidableEq

/-- Constructor `new DataStream(id)` (src/sketch.js lines 27-59); `now` is the
value of `Date.now()` at construction. -/
def mkStream (id now : ℕ) : DataStream where
  id := id
  lastUpdate := now
  x := .fin 0
  y := .fin 0
  z := .fin 0
  rawX := .fin 0
  rawY := .fin 0
  rawZ := .fin 0
  calibrating := true
  calibrationData := []
  baseX := .fin 0
  baseY := .fin 0
  baseZ := .fin 0
  deadzone := .fin 250
  calibrationNoise := .fin 0
  motionThresholds := [.fin 200, .fin 500, .fin 1000, .fin 2000]
  motion := 0
  distance := .fin 0
  calibrationQuality := "UNKNOWN"
  lastMotionTime := now

/-- JavaScript array read `a[i]` used inside arithmetic or comparisons: an
out-of-bounds read yields `undefined`, which behaves as NaN in arithmetic and
makes every relational comparison false, exactly as `JSNum.nan` does. -/
def thAt (ts : List JSNum) (i : ℕ) : JSNum := (ts.get? i).getD .nan

/-- DataStream.startCalibration (src/sketch.js lines 61-65). -/
def DataStream.startCalibration (s : DataStream) : DataStream :=
  { s with calibrating := true, calibrationData := [] }

/-- DataStream.finishCalibration (src/sketch.js lines 149-211): baseline mean,
per-axis variance and standard deviation, composite noise, quality label,
adaptive deadzone and the six adaptive motion thresholds. -/
def DataStream.finishCalibration (s : DataStream) : DataStream :=
  let n : JSNum := .fin (s.calibrationData.length : ℚ)
  let sumX := s.calibrationData.foldl (fun acc d => jsAdd acc d.1) (.fin 0)
  let sumY := s.calibrationData.foldl (fun acc d => jsAdd acc d.2.1) (.fin 0)
  let sumZ := s.calibrationData.foldl (fun acc d => jsAdd acc d.2.2) (.fin 0)
  let baseX := jsDiv sumX n
  let baseY := jsDiv sumY n
  let baseZ := jsDiv sumZ n
  let varX := jsDiv (s.calibrationData.foldl
    (fun acc d => jsAdd acc (jsMul (jsSub d.1 baseX) (jsSub d.1 baseX))) (.fin 0)) n
  let varY := jsDiv (s.calibrationData.foldl
    (fun acc d => jsAdd acc (jsMul (jsSub d.2.1 baseY) (jsSub d.2.1 baseY))) (.fin 0)) n
  let varZ := jsDiv (s.calibrationData.foldl
    (fun acc d => jsAdd acc (jsMul (jsSub d.2.2 baseZ) (jsSub d.2.2 baseZ))) (.fin 0)) n
  let stdX := jsSqrt varX
  let stdY := jsSqrt varY
  let stdZ := jsSqrt varZ
  let noise := jsSqrt (jsAdd (jsAdd (jsMul stdX stdX) (jsMul stdY stdY)) (jsMul stdZ stdZ))
  let quality :=
    if jsGt noise (.fin 500) then "POOR - Device was moving"
    else if jsGt noise (.fin 250) then "FAIR - Some movement detected"
    else "GOOD - Device was steady"
  let deadzone := jsMax (.fin 250) (jsMul noise (.fin (5/2)))
  let baseThreshold := jsMax (.fin 300) (jsMul noise (.fin 4))
  { s with
    baseX := baseX
    baseY := baseY
    baseZ := baseZ
    calibrationNoise := noise
    calibrationQuality := quality
    deadzone := deadzone
    motionThresholds :=
      [baseThreshold,
       jsMul baseThreshold (.fin (9/5)),
       jsMul baseThreshold (.fin (7/2)),
       jsMul baseThreshold (.fin 6),
       jsMul baseThreshold (.fin 10),
       jsMul baseThreshold (.fin 16)]
    x := baseX
    y := baseY
    z := baseZ
    calibrating := false }

/-- Euclidean distance of a raw sample from the stored baseline
(src/sketch.js lines 97-102). -/
def distanceOf (s : DataStream) (x y z : JSNum) : JSNum :=
  let dx := jsSub x s.baseX
  let dy := jsSub y s.baseY
  let dz := jsSub z s.baseZ
  jsSqrt (jsAdd (jsAdd (jsMul dx dx) (jsMul dy dy)) (jsMul dz dz))

/-- Deadzone-filtered effective distance (src/sketch.js lines 107-111). -/
def effectiveOf (s : DataStream) (x y z : JSNum) : JSNum :=
  let d := distanceOf s x y z
  if jsLt d s.deadzone then .fin 0 else d

/-- The 20 percent hysteresis margin `this.motionThresholds[0] * 0.2`
(src/sketch.js line 115). -/
def hysteresisOf (s : DataStream) : JSNum :=
  jsMul (thAt s.motionThresholds 0) (.fin (1/5))

/-- The level scan of src/sketch.js lines 118-123, from level `n` down to 0:
first level whose threshold the effective distance reaches, as `some (level+1)`;
`none` when no threshold fires. -/
def scanAux (ts : List JSNum) (eff : JSNum) : ℕ → Option ℕ
  | 0 => if jsGe eff (thAt ts 0) then some 1 else none
  | n + 1 => if jsGe eff (thAt ts (n + 1)) then some (n + 2) else scanAux ts eff n

/-- Result of the full scan from level 5 down to 0. -/
def scanLevels (ts : List JSNum) (eff : JSNum) : Option ℕ := scanAux ts eff 5

/-- DataStream.update (src/sketch.js lines 67-147): NaN guard, raw-value
store, calibration collection with completion at 60 samples, then smoothing,
distance, deadzone, threshold scan, decrease hysteresis, stuck-state reset and
the final motion/timestamp writes. -/
def DataStream.update (s : DataStream) (now : ℕ) (x y z : JSNum) : DataStream :=
  if jsIsNaN x || jsIsNaN y || jsIsNaN z then s
  else
    let s1 := { s with rawX := x, rawY := y, rawZ := z }
    if s1.calibrating then
      let s2 := { s1 with
        calibrationData := s1.calibrationData ++ [(x, y, z)], x := x, y := y, z := z }
      let s3 := if 60 ≤ s2.calibrationData.length then s2.finishCalibration else s2
      { s3 with lastUpdate := now }
    else
      let s2 := { s1 with
        x := jsAdd s1.x (jsMul (jsSub x s1.x) (.fin (3/20)))
        y := jsAdd s1.y (jsMul (jsSub y s1.y) (.fin (3/20)))
        z := jsAdd s1.z (jsMul (jsSub z s1.z) (.fin (3/20))) }
      let dist := distanceOf s2 x y z
      let eff := if jsLt dist s2.deadzone then JSNum.fin 0 else dist
      let m1 := (scanLevels s2.motionThresholds eff).getD s2.motion
      let m2 :=
        if m1 < s2.motion then
          let thresholdIndex : ℤ := (s2.motion : ℤ) - 1
          if 0 ≤ thresholdIndex then
            if jsGt eff (jsSub (thAt s2.motionThresholds thresholdIndex.toNat)
                (hysteresisOf s2)) then s2.motion
            else m1
          else m1
        else m1
      let m3 :=
        if 0 < s2.motion ∧ m2 = s2.motion ∧ jsLt eff s2.deadzone = true then
          (if 2000 < (now : ℤ) - (s2.lastMotionTime : ℤ) then 0 else m2)
        else m2
      let lmt := if m3 ≠ s2.motion then now else s2.lastMotionTime
      { s2 with
        distance := dist
        motion := min 5 m3
        lastMotionTime := lmt
        lastUpdate := now }

/-- Ingest a list of timestamped samples in order. -/
def ingestAll (s : DataStream) (l : List (ℕ × JSNum × JSNum × JSNum)) : DataStream :=
  l.foldl (fun st p => st.update p.1 p.2.1 p.2.2.1 p.2.2.2) s

/-- The registry `streamData` of src/sketch.js: a JavaScript object keyed by
stream id. -/
def Registry : Type := ℕ → Option DataStream

/-- The empty registry. -/
def emptyRegistry : Registry := fun _ => none

/-- Match of the registration regex `S([1-6])` anchored at both ends
(src/sketch.js line 277): the whole message is the letter S followed by one
digit of the character class 1-6. -/
def regMatchS (msg : String) : Option ℕ :=
  match msg.data with
  | [a, c] =>
      if a = 'S' ∧ c ∈ ['1', '2', '3', '4', '5', '6'] then some (c.toNat - 48) else none
  | _ => none

/-- Match of the data regex `m([1-6])` anchored only at the start
(src/sketch.js line 288): the message begins with the letter m followed by one
digit of the class 1-6; anything may follow. -/
def dataMatchM (msg : String) : Option ℕ :=
  match msg.data with
  | a :: c :: _ =>
      if a = 'm' ∧ c ∈ ['1', '2', '3', '4', '5', '6'] then some (c.toNat - 48) else none
  | _ => none

/-- Character class complement of comma-or-whitespace used by the axis token
regexes of src/sketch.js lines 296-298. -/
def isTokChar (c : Char) : Bool := !(c = ',' || c.isWhitespace)

/-- Leftmost match of the regex `k=` followed by one or more characters that
are neither comma nor whitespace, returning the captured token; the engine
retries at the next position when the one-or-more part is empty. -/
def findTok (key : Char) : List Char → Option (List Char)
  | [] => none
  | c :: rest =>
      if c = key then
        match rest with
        | '=' :: rest2 =>
            let tok := rest2.takeWhile isTokChar
            if tok.isEmpty then findTok key rest else some tok
        | _ => findTok key rest
      else findTok key rest

/-- Digit run folded to a natural number. -/
def digitsToNat (ds : List Char) : ℕ := ds.foldl (fun a c => a * 10 + (c.toNat - 48)) 0

/-- JavaScript builtin `parseFloat` on a token containing neither whitespace
nor commas: optional sign, the keyword Infinity, or a decimal literal taken as
the longest valid numeric leading part; NaN when no digits are found.  Modelled
JS builtin (exponent notation omitted; no token evaluated here uses it). -/
def jsParseFloat (cs : List Char) : JSNum :=
  let sgnRest : Bool × List Char :=
    match cs with
    | '-' :: r => (true, r)
    | '+' :: r => (false, r)
    | r => (false, r)
  let neg := sgnRest.1
  let rest := sgnRest.2
  if rest.take 8 = "Infinity".data then (if neg then .ninf else .inf)
  else
    let intPart := rest.takeWhile Char.isDigit
    let rest2 := rest.dropWhile Char.isDigit
    let fracPart :=
      match rest2 with
      | '.' :: r => r.takeWhile Char.isDigit
      | _ => []
    if intPart.isEmpty ∧ fracPart.isEmpty then .nan
    else
      let q : ℚ := (digitsToNat intPart : ℚ) +
        (digitsToNat fracPart : ℚ) / ((10 : ℚ) ^ fracPart.length)
      .fin (if neg then -q else q)

/-- parseMessage (src/sketch.js lines 273-308): registration creates a missing
stream; a data match auto-creates a missing stream, extracts the three axis
tokens and calls update only when all three are present.  `now` is the value
of `Date.now()` during the call (the global message counter is statistics only
and not part of the registry). -/
def parseMessage (now : ℕ) (reg : Registry) (msg : String) : Registry :=
  match regMatchS msg with
  | some id =>
      (match reg id with
       | some _ => reg
       | none => fun j => if j = id then some (mkStream id now) else reg j)
  | none =>
      match dataMatchM msg with
      | none => reg
      | some id =>
          let s := match reg id with
            | some s0 => s0
            | none => mkStream id now
          match findTok 'x' msg.data, findTok 'y' msg.data, findTok 'z' msg.data with
          | some xt, some yt, some zt =>
              fun j => if j = id then
                some (s.update now (jsParseFloat xt) (jsParseFloat yt) (jsParseFloat zt))
              else reg j
          | _, _, _ =>
              fun j => if j = id then some s else reg j

/-- Scheduler state of the graph front-end (src/unnamed/part_001): the pending
queue is abstracted to its count of complete nonempty lines, since dispatching
a message does not feed back into the scheduling decisions; `purges` counts
auto-clear events. -/
structure SchedState where
  pending : ℕ
  backlog : ℕ
  purges : ℕ
deriving DecidableEq

/-- One draw-tick of the ingestion scheduler (src/unnamed/part_001 lines
274-303 with clearSerialBuffer lines 406-433): drain at most 20 messages; a
full drain of 20 increments the consecutive-backlog counter; when that counter
reaches 60 the buffer is auto-cleared, discarding up to 1000 further pending
messages, and the counter resets; a non-full drain resets the counter. -/
def schedTick (st : SchedState) : SchedState :=
  let n := min 20 st.pending
  let pending := st.pending - n
  if 20 ≤ n then
    let c := st.backlog + 1
    if 60 ≤ c then
      { pending := pending - min 1000 pending, backlog := 0, purges := st.purges + 1 }
    else { pending := pending, backlog := c, purges := st.purges }
  else { pending := pending, backlog := 0, purges := st.purges }

/-- Iterate the scheduler for a number of ticks. -/
def schedRun : ℕ → SchedState → SchedState
  | 0, st => st
  | t + 1, st => schedRun t (schedTick st)

/-- States of a single stream reachable through its public operations:
construction, ingest, explicit recalibration. -/
inductive Reachable : DataStream → Prop where
  | mk (id now : ℕ) : Reachable (mkStream id now)
  | upd {s : DataStream} (now : ℕ) (x y z : JSNum) :
      Reachable s → Reachable (s.update now x y z)
  | recal {s : DataStream} : Reachable s → Reachable s.startCalibration

/-- A perfectly still timestamped sample at the origin. -/
def zeroSample : ℕ × JSNum × JSNum × JSNum := (0, .fin 0, .fin 0, .fin 0)

/-- Stream 1 mid-calibration, 59 still samples collected (the state a fresh
stream reaches after 59 still ingests). -/
def preReady : DataStream :=
  { mkStream 1 0 with calibrationData := List.replicate 59 (.fin 0, .fin 0, .fin 0) }

/-- Stream 1 after a full 60-sample calibration on perfectly still data:
noise 0, deadzone 250, thresholds [300, 540, 1050, 1800, 3000, 4800]. -/
def readyS : DataStream := preReady.update 0 (.fin 0) (.fin 0) (.fin 0)

/-- The 60-step ingest chain of a full still calibration of a fresh stream. -/
def deepReady : DataStream := ingestAll (mkStream 1 0) (List.replicate 60 zeroSample)

/-- readyS after one sample at distance 500 from baseline at time 100:
motion level 1. -/
def readyM1 : DataStream := readyS.update 100 (.fin 500) (.fin 0) (.fin 0)

/-- readyS after one sample at distance 600 from baseline at time 100:
motion level 2. -/
def readyM2 : DataStream := readyS.update 100 (.fin 600) (.fin 0) (.fin 0)

/-- readyM1 after a still sample past the 2000ms stuck-state timeout. -/
def stuckReset : DataStream := readyM1.update 2101 (.fin 0) (.fin 0) (.fin 0)

/-- A timestamped sample none of whose coordinates is NaN (a sample the
isNaN guard of update accepts). -/
def nanFree (p : ℕ × JSNum × JSNum × JSNum) : Prop :=
  jsIsNaN p.2.1 = false ∧ jsIsNaN p.2.2.1 = false ∧ jsIsNaN p.2.2.2 = false

instance instDecidableNanFree (p : ℕ × JSNum × JSNum × JSNum) :
    Decidable (nanFree p) :=
  inferInstanceAs (Decidable (_ ∧ _ ∧ _))

/-- C2 counterexample: an ingest with a +Infinity coordinate is non-finite and
the claim demands it leave the state untouched, yet the NaN-only guard of
update lets it through and it appends to the calibration buffer. -/
theorem C2_infinity_mutates_state :
    (jsIsNaN JSNum.inf || jsIsNaN (JSNum.fin 1) || jsIsNaN (JSNum.fin 1)) = false ∧
    (mkStream 1 0).update 0 JSNum.inf (JSNum.fin 1) (JSNum.fin 1) ≠ mkStream 1 0 := by
  decide

/-- C2 (amended): an ingest is rejected with the whole StreamState unchanged
exactly when one of x, y, z is NaN; the infinities pass the guard (the code
tests only isNaN, not finiteness). -/
theorem C2_nan_guard_rejects_only_nan :
    (∀ (s : DataStream) (now : ℕ) (x y z : JSNum),
        (jsIsNaN x || jsIsNaN y || jsIsNaN z) = true → s.update now x y z = s) ∧
    jsIsNaN JSNum.inf = false ∧ jsIsNaN JSNum.ninf = false := by
  refine ⟨fun s now x y z h => ?_, rfl, rfl⟩
  unfold DataStream.update
  rw [h]
  rfl

/-- C2 witness: a NaN x coordinate leaves a fresh stream untouched. -/
theorem C2_nan_guard_witness :
    (mkStream 1 0).update 5 JSNum.nan (JSNum.fin 1) (JSNum.fin 1) = mkStream 1 0 :=
  C2_nan_guard_rejects_only_nan.1 (mkStream 1 0) 5 JSNum.nan (JSNum.fin 1) (JSNum.fin 1)
    (by decide)

/-- Iterating the scheduler splits into two runs. -/
theorem schedRun_add (a b : ℕ) (st : SchedState) :
    schedRun (b + a) st = schedRun b (schedRun a st) := by
  induction a generalizing st with
  | zero => rfl
  | succ n ih =>
      show schedRun (b + n + 1) st = _
      have h1 : schedRun (b + n + 1) st = schedRun (b + n) (schedTick st) := rfl
      rw [h1, ih]
      rfl

/-- A full drain below the purge threshold, on explicit components. -/
theorem schedTick_full (p b q : ℕ) (h20 : 20 ≤ p) (hb : b + 1 < 60) :
    schedTick ⟨p, b, q⟩ = ⟨p - 20, b + 1, q⟩ := by
  have hmin : min 20 p = 20 := by omega
  unfold schedTick
  simp only [hmin]
  have hlt : ¬ 60 ≤ b + 1 := by omega
  simp only [le_refl, if_pos, if_neg hlt]

/-- A non-full drain, on explicit components. -/
theorem schedTick_short (p b q : ℕ) (h20 : p < 20) :
    schedTick ⟨p, b, q⟩ = ⟨0, 0, q⟩ := by
  have hmin : min 20 p = p := by omega
  unfold schedTick
  simp only [hmin]
  have hlt : ¬ 20 ≤ p := by omega
  simp only [if_neg hlt, Nat.sub_self]

/-- The purge tick, on explicit components. -/
theorem schedTick_purge (p b q : ℕ) (h20 : 20 ≤ p) (hb : b + 1 = 60) :
    schedTick ⟨p, b, q⟩ = ⟨p - 20 - min 1000 (p - 20), 0, q + 1⟩ := by
  have hmin : min 20 p = 20 := by omega
  unfold schedTick
  simp only [hmin, hb]
  simp only [le_refl, if_pos]

/-- Draining down a backlog: starting with a counter that will hit 60 after
k+1 more full drains and enough pending messages to keep every drain full, the
run performs exactly the purge tick at the end. -/
theorem schedRun_purge (k : ℕ) : ∀ p b q : ℕ, b + (k + 1) = 60 →
    20 * (k + 1) ≤ p →
    schedRun (k + 1) ⟨p, b, q⟩ =
      ⟨p - 20 * (k + 1) - min 1000 (p - 20 * (k + 1)), 0, q + 1⟩ := by
  induction k with
  | zero =>
      intro p b q hb hp
      show schedRun 0 (schedTick ⟨p, b, q⟩) = _
      rw [schedTick_purge p b q (by omega) (by omega)]
      show (⟨p - 20 - min 1000 (p - 20), 0, q + 1⟩ : SchedState) = _
      have h1 : p - 20 = p - 20 * (0 + 1) := by omega
      rw [h1]
  | succ n ih =>
      intro p b q hb hp
      show schedRun (n + 1) (schedTick ⟨p, b, q⟩) = _
      rw [schedTick_full p b q (by omega) (by omega)]
      rw [ih (p - 20) (b + 1) q (by omega) (by omega)]
      have h1 : p - 20 - 20 * (n + 1) = p - 20 * (n + 1 + 1) := by omega
      rw [h1]

/-- A state whose pending backlog cannot sustain 60 further consecutive full
drains never purges again. -/
theorem schedRun_no_purge (t : ℕ) : ∀ p b q : ℕ, p + 20 * b < 1200 →
    (schedRun t ⟨p, b, q⟩).purges = q := by
  induction t with
  | zero => intro p b q _; rfl
  | succ n ih =>
      intro p b q h
      show (schedRun n (schedTick ⟨p, b, q⟩)).purges = q
      rcases le_or_lt 20 p with h20 | h20
      · rw [schedTick_full p b q h20 (by omega)]
        exact ih (p - 20) (b + 1) q (by omega)
      · rw [schedTick_short p b q h20]
        exact ih 0 0 q (by omega)

set_option maxRecDepth 40000 in
/-- C7 counterexample: a burst of 3400 messages exceeds 20 times 60, yet the
run performs two purge events, not exactly one (the second fires after the
survivors of the first purge sustain another 60 full drains). -/
theorem C7_two_purges_on_large_burst :
    20 * 60 < 3400 ∧
    (schedRun 180 { pending := 3400, backlog := 0, purges := 0 }).purges = 2 := by
  decide

/-- C7 (amended): each tick drains at most 20 messages, a non-full drain
resets the consecutive-backlog counter while a full drain of 20 increments it;
the tick on which the counter reaches 60 discards at most 1000 further pending
messages and resets the counter; and a burst of at least 1200 and fewer than
3400 messages triggers exactly one purge event (larger bursts can trigger
more). -/
theorem C7_backlog_purge_behaviour :
    (∀ st : SchedState, st.pending < 20 →
        schedTick st = { pending := 0, backlog := 0, purges := st.purges }) ∧
    (∀ st : SchedState, 20 ≤ st.pending → st.backlog + 1 < 60 →
        schedTick st = { pending := st.pending - 20, backlog := st.backlog + 1,
                         purges := st.purges }) ∧
    (∀ st : SchedState, 20 ≤ st.pending → st.backlog + 1 = 60 →
        schedTick st = { pending := st.pending - 20 - min 1000 (st.pending - 20),
                         backlog := 0, purges := st.purges + 1 }) ∧
    (∀ M t : ℕ, 1200 ≤ M → M < 3400 →
        (schedRun (t + 60) { pending := M, backlog := 0, purges := 0 }).purges = 1) := by
  refine ⟨?_, ?_, ?_, ?_⟩
  · intro st h
    have hmin : min 20 st.pending = st.pending := by omega
    unfold schedTick
    rw [hmin]
    have hlt : ¬ 20 ≤ st.pending := by omega
    simp only [if_neg hlt, Nat.sub_self]
  · intro st h20 hb
    have hmin : min 20 st.pending = 20 := by omega
    unfold schedTick
    rw [hmin]
    have hlt : ¬ 60 ≤ st.backlog + 1 := by omega
    simp only [le_refl, if_pos, if_neg hlt]
  · intro st h20 hb
    have hmin : min 20 st.pending = 20 := by omega
    unfold schedTick
    rw [hmin]
    rw [hb]
    simp only [le_refl, if_pos]
  · intro M t hM1 hM2
    rw [schedRun_add 60 t]
    have h60 : schedRun 60 ({ pending := M, backlog := 0, purges := 0 } : SchedState) =
        ⟨M - 1200 - min 1000 (M - 1200), 0, 1⟩ := by
      have h := schedRun_purge 59 M 0 0 (by omega) (by omega)
      have harith : 20 * (59 + 1) = 1200 := by omega
      rw [harith] at h
      exact h
    rw [h60]
    exact schedRun_no_purge t (M - 1200 - min 1000 (M - 1200)) 0 1 (by omega)

/-- C7 witness: a burst of 1300 messages yields exactly one purge. -/
theorem C7_backlog_purge_witness :
    (schedRun (0 + 60) { pending := 1300, backlog := 0, purges := 0 }).purges = 1 :=
  C7_backlog_purge_behaviour.2.2.2 1300 0 (by decide) (by decide)

/-- A message that matches the data regex begins with the letter m, so it
cannot match the fully anchored registration regex. -/
theorem regMatchS_none_of_dataMatch (msg : String) (id : ℕ)
    (hd : dataMatchM msg = some id) : regMatchS msg = none := by
  obtain ⟨l⟩ := msg
  rcases l with _ | ⟨a, _ | ⟨c, rest⟩⟩
  · simp [dataMatchM] at hd
  · simp [dataMatchM] at hd
  · rcases rest with _ | ⟨d, rest2⟩
    · simp only [dataMatchM] at hd
      split at hd
      case isTrue h =>
        have hms : ('m' : Char) ≠ 'S' := by decide
        simp [regMatchS, h.1, hms]
      case isFalse h => cases hd
    · simp [regMatchS]

/-- C4 counterexample: the claim demands that the data line m12 (stream id 12,
outside 1..6) leave the registry completely unchanged, but the code's
start-anchored-only regex routes it to stream 1, creating that stream. -/
theorem C4_m12_reaches_registry :
    (emptyRegistry 1).isSome = false ∧
    ((parseMessage 0 emptyRegistry "m12 x=1 y=1 z=1") 1).isSome = true := by
  decide

/-- C4 (amended): a message matching neither regex leaves the registry
unchanged, and every id either regex accepts lies in 1..6, so registration ids
outside 1..6 and data lines whose first id digit is outside 1..6 never reach
the registry; but a data line is matched on its first digit only, so a line
with a longer id such as m12 is routed to the single-digit stream 1 and does
modify the registry. -/
theorem C4_id_range_filtering :
    (∀ (now : ℕ) (reg : Registry) (msg : String),
        regMatchS msg = none → dataMatchM msg = none → parseMessage now reg msg = reg) ∧
    (∀ (msg : String) (id : ℕ), regMatchS msg = some id → 1 ≤ id ∧ id ≤ 6) ∧
    (∀ (msg : String) (id : ℕ), dataMatchM msg = some id → 1 ≤ id ∧ id ≤ 6) ∧
    dataMatchM "m12 x=1 y=1 z=1" = some 1 := by
  refine ⟨?_, ?_, ?_, by decide⟩
  · intro now reg msg h1 h2
    unfold parseMessage
    rw [h1, h2]
  · intro msg id h
    obtain ⟨l⟩ := msg
    rcases l with _ | ⟨a, _ | ⟨c, rest⟩⟩
    · simp [regMatchS] at h
    · simp [regMatchS] at h
    · rcases rest with _ | ⟨d, rest2⟩
      · simp only [regMatchS] at h
        split at h
        case isTrue hcond =>
          obtain rfl : c.toNat - 48 = id := Option.some.inj h
          have hc := hcond.2
          fin_cases hc <;> decide
        case isFalse hcond => cases h
      · simp [regMatchS] at h
  · intro msg id h
    obtain ⟨l⟩ := msg
    rcases l with _ | ⟨a, _ | ⟨c, rest⟩⟩
    · simp [dataMatchM] at h
    · simp [dataMatchM] at h
    · simp only [dataMatchM] at h
      split at h
      case isTrue hcond =>
        obtain rfl : c.toNat - 48 = id := Option.some.inj h
        have hc := hcond.2
        fin_cases hc <;> decide
      case isFalse hcond => cases h

/-- C4 witness: the registration line S7 and the data line m7 leave any
registry unchanged. -/
theorem C4_id_range_witness :
    parseMessage 0 emptyRegistry "S7" = emptyRegistry ∧
    parseMessage 0 emptyRegistry "m7 x=1 y=1 z=1" = emptyRegistry :=
  ⟨C4_id_range_filtering.1 0 emptyRegistry "S7" (by decide) (by decide),
   C4_id_range_filtering.1 0 emptyRegistry "m7 x=1 y=1 z=1" (by decide) (by decide)⟩

/-- C10: a data line with an accepted id but a missing axis token still
auto-creates the stream (fresh, calibrating, empty buffer) when absent, leaves
every other id untouched, and leaves the whole registry unchanged when the
stream already exists. -/
theorem C10_missing_axis_still_creates_stream (now : ℕ) (reg : Registry)
    (msg : String) (id : ℕ) (hd : dataMatchM msg = some id)
    (hmiss : findTok 'x' msg.data = none ∨ findTok 'y' msg.data = none ∨
      findTok 'z' msg.data = none) :
    (reg id = none →
        parseMessage now reg msg id = some (mkStream id now) ∧
        (mkStream id now).calibrating = true ∧
        (mkStream id now).calibrationData = []) ∧
    (∀ j, j ≠ id → parseMessage now reg msg j = reg j) ∧
    (∀ s0, reg id = some s0 → parseMessage now reg msg = reg) := by
  have hreg := regMatchS_none_of_dataMatch msg id hd
  have hfall : parseMessage now reg msg =
      (fun j => if j = id then
        some (match reg id with | some s0 => s0 | none => mkStream id now)
      else reg j) := by
    unfold parseMessage
    rw [hreg, hd]
    rcases hx : findTok 'x' msg.data with _ | xt <;>
      rcases hy : findTok 'y' msg.data with _ | yt <;>
        rcases hz : findTok 'z' msg.data with _ | zt <;>
          simp only [hx, hy, hz]
    rcases hmiss with h | h | h
    · rw [hx] at h; cases h
    · rw [hy] at h; cases h
    · rw [hz] at h; cases h
  rw [hfall]
  refine ⟨?_, ?_, ?_⟩
  · intro h0
    rw [h0]
    exact ⟨by simp, rfl, rfl⟩
  · intro j hj
    simp [hj]
  · intro s0 h0
    funext j
    rw [h0]
    by_cases hji : j = id
    · subst hji
      simp [h0]
    · simp [hji]

/-- C10 witness: the line m3 with x and y but no z token creates stream 3 in
Calibrating with an empty buffer on an empty registry. -/
theorem C10_missing_axis_witness :
    parseMessage 7 emptyRegistry "m3 x=1 y=2" 3 = some (mkStream 3 7) ∧
    (mkStream 3 7).calibrating = true ∧ (mkStream 3 7).calibrationData = [] :=
  (C10_missing_axis_still_creates_stream 7 emptyRegistry "m3 x=1 y=2" 3
    (by decide) (Or.inr (Or.inr (by decide)))).1 rfl

/-- An ingest while calibrating, below the completion mark: the guard-passing
sample is stored raw, appended to the buffer, copied into the smoothed values,
and nothing else changes. -/
theorem update_calibrating_append (s : DataStream) (now : ℕ) (x y z : JSNum)
    (hc : s.calibrating = true)
    (hx : jsIsNaN x = false) (hy : jsIsNaN y = false) (hz : jsIsNaN z = false)
    (hlen : s.calibrationData.length + 1 < 60) :
    s.update now x y z =
      { s with
        rawX := x
        rawY := y
        rawZ := z
        calibrationData := s.calibrationData ++ [(x, y, z)]
        x := x
        y := y
        z := z
        lastUpdate := now } := by
  have hno : ¬ (60 ≤ s.calibrationData.length + 1) := by omega
  simp [DataStream.update, hx, hy, hz, hc, hno]

/-- An ingest while calibrating that reaches 60 buffered samples runs
finishCalibration on the appended buffer. -/
theorem update_calibrating_finish (s : DataStream) (now : ℕ) (x y z : JSNum)
    (hc : s.calibrating = true)
    (hx : jsIsNaN x = false) (hy : jsIsNaN y = false) (hz : jsIsNaN z = false)
    (hlen : 60 ≤ s.calibrationData.length + 1) :
    s.update now x y z =
      { ({ s with
           rawX := x
           rawY := y
           rawZ := z
           calibrationData := s.calibrationData ++ [(x, y, z)]
           x := x
           y := y
           z := z } : DataStream).finishCalibration with
        lastUpdate := now } := by
  simp [DataStream.update, hx, hy, hz, hc, hlen]

/-- finishCalibration clears the calibrating flag. -/
theorem finishCalibration_calibrating (s : DataStream) :
    s.finishCalibration.calibrating = false := rfl

/-- finishCalibration leaves the collected buffer in place. -/
theorem finishCalibration_calibrationData (s : DataStream) :
    s.finishCalibration.calibrationData = s.calibrationData := rfl

/-- finishCalibration does not touch the motion level. -/
theorem finishCalibration_motion (s : DataStream) :
    s.finishCalibration.motion = s.motion := rfl

/-- finishCalibration installs exactly six motion thresholds. -/
theorem finishCalibration_thresholds_length (s : DataStream) :
    s.finishCalibration.motionThresholds.length = 6 := rfl

/-- An ingest on a Ready stream never touches the calibration flag, the
buffer, the thresholds or the deadzone. -/
theorem update_ready_fields (s : DataStream) (now : ℕ) (x y z : JSNum)
    (hc : s.calibrating = false) :
    (s.update now x y z).calibrating = false ∧
    (s.update now x y z).calibrationData = s.calibrationData ∧
    (s.update now x y z).motionThresholds = s.motionThresholds ∧
    (s.update now x y z).deadzone = s.deadzone := by
  by_cases hg : (jsIsNaN x || jsIsNaN y || jsIsNaN z) = true
  · simp [DataStream.update, hg, hc]
  · have hgf : (jsIsNaN x || jsIsNaN y || jsIsNaN z) = false :=
      Bool.not_eq_true _ ▸ eq_false_of_ne_true hg
    simp [DataStream.update, hgf, hc]

set_option maxRecDepth 200000 in
/-- C1 counterexample: a Ready stream at motion level 1 (thresholds
[300, 540, 1050, 1800, 3000, 4800], deadzone 250) ingests a perfectly still
sample: the effective distance 0 is below motionThresholds[0] and below the
hysteresis decrease bound 300 - 0.2 * 300 = 240, the stuck timeout has not
elapsed, and yet motionLevel stays 1 instead of dropping to 0. -/
theorem C1_still_sample_does_not_reset :
    readyM1.calibrating = false ∧ readyM1.motion = 1 ∧
    jsLt (effectiveOf readyM1 (.fin 0) (.fin 0) (.fin 0))
      (thAt readyM1.motionThresholds 0) = true ∧
    jsLt (effectiveOf readyM1 (.fin 0) (.fin 0) (.fin 0))
      (jsSub (thAt readyM1.motionThresholds (readyM1.motion - 1))
        (hysteresisOf readyM1)) = true ∧
    (200 : ℤ) - (readyM1.lastMotionTime : ℤ) ≤ 2000 ∧
    (readyM1.update 200 (.fin 0) (.fin 0) (.fin 0)).motion = 1 := by
  with_unfolding_all decide

/-- C1 (amended): when the downward scan fires on no threshold (in particular
whenever the effective distance is below every threshold), the candidate kept
is the current motionLevel, not 0; hence with the stuck-state timeout not yet
elapsed a single ingest leaves motionLevel and lastMotionChangeAt unchanged —
a Ready stream can only reach level 0 from m > 0 through the 2000ms
stuck-state reset. -/
theorem C1_scan_keeps_current_level (s : DataStream) (now : ℕ) (x y z : JSNum)
    (hc : s.calibrating = false)
    (hx : jsIsNaN x = false) (hy : jsIsNaN y = false) (hz : jsIsNaN z = false)
    (hscan : scanLevels s.motionThresholds (effectiveOf s x y z) = none)
    (ht : (now : ℤ) - (s.lastMotionTime : ℤ) ≤ 2000)
    (hm : s.motion ≤ 5) :
    (s.update now x y z).motion = s.motion ∧
    (s.update now x y z).lastMotionTime = s.lastMotionTime := by
  simp only [effectiveOf, distanceOf] at hscan
  have ht2 : ¬ ((2000 : ℤ) < (now : ℤ) - (s.lastMotionTime : ℤ)) := not_lt.mpr ht
  simp only [DataStream.update, distanceOf, hx, hy, hz, hc, Bool.or_self, Bool.false_or,
    Bool.false_eq_true, if_false, hscan, Option.getD_none, lt_irrefl, ite_self,
    ht2, ite_false, ne_eq, not_true_eq_false, Nat.min_eq_right hm, if_pos, if_neg]
  simp

set_option maxRecDepth 200000 in
/-- C1 witness: the still sample of the counterexample state satisfies every
hypothesis and keeps motion level 1 and its change timestamp. -/
theorem C1_scan_keeps_current_level_witness :
    (readyM1.update 200 (.fin 0) (.fin 0) (.fin 0)).motion = readyM1.motion ∧
    (readyM1.update 200 (.fin 0) (.fin 0) (.fin 0)).lastMotionTime =
      readyM1.lastMotionTime :=
  C1_scan_keeps_current_level readyM1 200 (.fin 0) (.fin 0) (.fin 0)
    (by with_unfolding_all decide) (by decide) (by decide) (by decide)
    (by with_unfolding_all decide) (by with_unfolding_all decide)
    (by with_unfolding_all decide)

set_option maxRecDepth 200000 in
/-- C3 counterexample: with thresholds [300, 540, ...] and motion level 2, the
claim demands that an effective distance exactly equal to the decrease bound
540 - 0.2 * 300 = 480 hold the level at 2, but the code's strict greater-than
hold test accepts the decrease and the level drops to 1. -/
theorem C3_boundary_equality_accepts_decrease :
    readyM2.calibrating = false ∧ readyM2.motion = 2 ∧
    effectiveOf readyM2 (.fin 480) (.fin 0) (.fin 0) =
      jsSub (thAt readyM2.motionThresholds (readyM2.motion - 1))
        (hysteresisOf readyM2) ∧
    scanLevels readyM2.motionThresholds
      (effectiveOf readyM2 (.fin 480) (.fin 0) (.fin 0)) = some 1 ∧
    (readyM2.update 200 (.fin 480) (.fin 0) (.fin 0)).motion = 1 := by
  with_unfolding_all decide

/-- C3 (amended): for a Ready stream whose scan yields a candidate strictly
below the current motionLevel (and with the stuck timeout not elapsed), the
decrease is accepted if and only if the effective distance is NOT strictly
greater than motionThresholds[motionLevel-1] - 0.2 * motionThresholds[0]: at
exact equality the decrease IS accepted, the hold fires only on strictly
greater effective distances. -/
theorem C3_decrease_hysteresis_boundary (s : DataStream) (now : ℕ)
    (x y z : JSNum) (c : ℕ)
    (hc : s.calibrating = false)
    (hx : jsIsNaN x = false) (hy : jsIsNaN y = false) (hz : jsIsNaN z = false)
    (hscan : scanLevels s.motionThresholds (effectiveOf s x y z) = some c)
    (hlt : c < s.motion) (hm : s.motion ≤ 5)
    (ht : (now : ℤ) - (s.lastMotionTime : ℤ) ≤ 2000) :
    (s.update now x y z).motion =
      if jsGt (effectiveOf s x y z)
          (jsSub (thAt s.motionThresholds (s.motion - 1)) (hysteresisOf s)) = true
      then s.motion else c := by
  simp only [effectiveOf, distanceOf] at hscan
  have ht2 : ¬ ((2000 : ℤ) < (now : ℤ) - (s.lastMotionTime : ℤ)) := not_lt.mpr ht
  have hm1 : 1 ≤ s.motion := by omega
  have hidx : (0 : ℤ) ≤ (s.motion : ℤ) - 1 := by omega
  have htn : ((s.motion : ℤ) - 1).toNat = s.motion - 1 := by omega
  simp only [DataStream.update, distanceOf, effectiveOf, hysteresisOf, hx, hy, hz, hc,
    Bool.or_self, Bool.false_or, Bool.false_eq_true, if_false, hscan,
    Option.getD_some, hlt, if_pos, hidx, htn, ht2, ite_false]
  rcases hgt : jsGt
      (if jsLt (jsSqrt (jsAdd (jsAdd (jsMul (jsSub x s.baseX) (jsSub x s.baseX))
            (jsMul (jsSub y s.baseY) (jsSub y s.baseY)))
          (jsMul (jsSub z s.baseZ) (jsSub z s.baseZ)))) s.deadzone = true
        then JSNum.fin 0
        else jsSqrt (jsAdd (jsAdd (jsMul (jsSub x s.baseX) (jsSub x s.baseX))
            (jsMul (jsSub y s.baseY) (jsSub y s.baseY)))
          (jsMul (jsSub z s.baseZ) (jsSub z s.baseZ))))
      (jsSub (thAt s.motionThresholds (s.motion - 1))
        (jsMul (thAt s.motionThresholds 0) (.fin (1/5)))) with _ | _
  · have hne : c ≠ s.motion := Nat.ne_of_lt hlt
    simp [hgt, hne, Nat.min_eq_right (by omega : c ≤ 5)]
  · simp [hgt, Nat.min_eq_right hm, Nat.lt_irrefl]

set_option maxRecDepth 200000 in
/-- C3 witness: the boundary sample at effective distance 480 on the
motion-level-2 stream satisfies every hypothesis; the hold test is false there
and the level drops to the scan candidate 1. -/
theorem C3_decrease_hysteresis_boundary_witness :
    (readyM2.update 200 (.fin 480) (.fin 0) (.fin 0)).motion =
      if jsGt (effectiveOf readyM2 (.fin 480) (.fin 0) (.fin 0))
          (jsSub (thAt readyM2.motionThresholds (readyM2.motion - 1))
            (hysteresisOf readyM2)) = true
      then readyM2.motion else 1 :=
  C3_decrease_hysteresis_boundary readyM2 200 (.fin 480) (.fin 0) (.fin 0) 1
    (by with_unfolding_all decide) (by decide) (by decide) (by decide)
    (by with_unfolding_all decide) (by with_unfolding_all decide)
    (by with_unfolding_all decide) (by with_unfolding_all decide)

/-- C6 (confirmed): on a Ready stream held at its motion level (the scan fires
on no threshold) with effective distance inside the deadzone, an ingest whose
clock exceeds lastMotionChangeAt by more than 2000ms forces motionLevel to 0
and stamps lastMotionChangeAt; and once at level 0, further still samples keep
level 0 and leave the stamp alone, so the reset fires exactly once. -/
theorem C6_stuck_state_reset_once :
    (∀ (s : DataStream) (now : ℕ) (x y z : JSNum),
      s.calibrating = false →
      jsIsNaN x = false → jsIsNaN y = false → jsIsNaN z = false →
      scanLevels s.motionThresholds (effectiveOf s x y z) = none →
      jsLt (effectiveOf s x y z) s.deadzone = true →
      (2000 : ℤ) < (now : ℤ) - (s.lastMotionTime : ℤ) →
      0 < s.motion → s.motion ≤ 5 →
      (s.update now x y z).motion = 0 ∧
      (s.update now x y z).lastMotionTime = now) ∧
    (∀ (s : DataStream) (now : ℕ) (x y z : JSNum),
      s.calibrating = false →
      jsIsNaN x = false → jsIsNaN y = false → jsIsNaN z = false →
      scanLevels s.motionThresholds (effectiveOf s x y z) = none →
      s.motion = 0 →
      (s.update now x y z).motion = 0 ∧
      (s.update now x y z).lastMotionTime = s.lastMotionTime) := by
  constructor
  · intro s now x y z hc hx hy hz hscan hdz htt hm0 hm
    simp only [effectiveOf, distanceOf] at hscan hdz
    simp only [DataStream.update, distanceOf, hx, hy, hz, hc, Bool.or_self,
      Bool.false_or, Bool.false_eq_true, if_false, hscan, Option.getD_none,
      lt_irrefl, ite_false, hdz, hm0, htt, and_self, and_true, true_and, if_pos,
      if_true]
    have hne : (0 : ℕ) ≠ s.motion := by omega
    simp [hne, Nat.min_eq_right (by omega : (0 : ℕ) ≤ 5)]
  · intro s now x y z hc hx hy hz hscan hm0
    simp only [effectiveOf, distanceOf] at hscan
    simp only [DataStream.update, distanceOf, hx, hy, hz, hc, Bool.or_self,
      Bool.false_or, Bool.false_eq_true, if_false, hscan, Option.getD_none,
      lt_irrefl, ite_false, hm0, Nat.lt_irrefl, false_and, if_false, ne_eq,
      not_true_eq_false]
    simp

set_option maxRecDepth 200000 in
/-- C6 witness: the motion-level-1 stream with a still sample at time 2101
(2001ms after the level change at 100) resets to 0 exactly once; the following
still sample at time 9999 stays at 0 and keeps the stamp 2101. -/
theorem C6_stuck_state_reset_once_witness :
    ((readyM1.update 2101 (.fin 0) (.fin 0) (.fin 0)).motion = 0 ∧
     (readyM1.update 2101 (.fin 0) (.fin 0) (.fin 0)).lastMotionTime = 2101) ∧
    ((stuckReset.update 9999 (.fin 0) (.fin 0) (.fin 0)).motion = 0 ∧
     (stuckReset.update 9999 (.fin 0) (.fin 0) (.fin 0)).lastMotionTime =
       stuckReset.lastMotionTime) :=
  ⟨C6_stuck_state_reset_once.1 readyM1 2101 (.fin 0) (.fin 0) (.fin 0)
      (by with_unfolding_all decide) (by decide) (by decide) (by decide)
      (by with_unfolding_all decide) (by with_unfolding_all decide)
      (by with_unfolding_all decide) (by with_unfolding_all decide)
      (by with_unfolding_all decide),
   C6_stuck_state_reset_once.2 stuckReset 9999 (.fin 0) (.fin 0) (.fin 0)
      (by with_unfolding_all decide) (by decide) (by decide) (by decide)
      (by with_unfolding_all decide) (by with_unfolding_all decide)⟩

/-- Ingests on a stream already out of calibration never touch the flag or
the buffer. -/
theorem ingestAll_ready : ∀ (l : List (ℕ × JSNum × JSNum × JSNum)) (s : DataStream),
    s.calibrating = false →
    (ingestAll s l).calibrating = false ∧
    (ingestAll s l).calibrationData = s.calibrationData := by
  intro l
  induction l with
  | nil => intro s hc; exact ⟨hc, rfl⟩
  | cons p rest ih =>
      intro s hc
      have hf := update_ready_fields s p.1 p.2.1 p.2.2.1 p.2.2.2 hc
      have hstep : ingestAll s (p :: rest) =
          ingestAll (s.update p.1 p.2.1 p.2.2.1 p.2.2.2) rest := rfl
      rw [hstep]
      obtain ⟨g1, g2⟩ := ih _ hf.1
      exact ⟨g1, g2.trans hf.2.1⟩

/-- Field consequences of an ingest while calibrating below the completion
mark. -/
theorem update_calibrating_append_fields (s : DataStream) (now : ℕ) (x y z : JSNum)
    (hc : s.calibrating = true)
    (hx : jsIsNaN x = false) (hy : jsIsNaN y = false) (hz : jsIsNaN z = false)
    (hlen : s.calibrationData.length + 1 < 60) :
    (s.update now x y z).calibrating = true ∧
    (s.update now x y z).calibrationData = s.calibrationData ++ [(x, y, z)] ∧
    (s.update now x y z).motion = s.motion ∧
    (s.update now x y z).x = x ∧ (s.update now x y z).y = y ∧
    (s.update now x y z).z = z := by
  rw [update_calibrating_append s now x y z hc hx hy hz hlen]
  exact ⟨hc, rfl, rfl, rfl, rfl, rfl⟩

/-- Field consequences of the ingest that completes calibration. -/
theorem update_calibrating_finish_fields (s : DataStream) (now : ℕ) (x y z : JSNum)
    (hc : s.calibrating = true)
    (hx : jsIsNaN x = false) (hy : jsIsNaN y = false) (hz : jsIsNaN z = false)
    (hlen : 60 ≤ s.calibrationData.length + 1) :
    (s.update now x y z).calibrating = false ∧
    (s.update now x y z).calibrationData = s.calibrationData ++ [(x, y, z)] ∧
    (s.update now x y z).motion = s.motion ∧
    (s.update now x y z).motionThresholds.length = 6 := by
  rw [update_calibrating_finish s now x y z hc hx hy hz hlen]
  exact ⟨rfl, rfl, rfl, rfl⟩

/-- An in-bounds index into a list is a some. -/
theorem get?_isSome_of_lt {α : Type} (l : List α) (i : ℕ) (h : i < l.length) :
    (l.get? i).isSome = true := by
  cases hg : l.get? i with
  | none => exact absurd (List.get?_eq_none.mp hg) (by omega)
  | some a => rfl

/-- Progress of the calibration buffer under a run of accepted samples:
below 60 total samples the stream keeps calibrating and buffering, at 60 it
flips to Ready once and the buffer is frozen at 60. -/
theorem calibration_progress :
    ∀ (l : List (ℕ × JSNum × JSNum × JSNum)) (s : DataStream),
    (∀ p ∈ l, nanFree p) → s.calibrating = true → s.calibrationData.length ≤ 59 →
    ((ingestAll s l).calibrating = true ↔ s.calibrationData.length + l.length < 60) ∧
    (ingestAll s l).calibrationData.length = min (s.calibrationData.length + l.length) 60 := by
  intro l
  induction l with
  | nil =>
      intro s _ hc hlen
      simp only [ingestAll, List.foldl_nil, List.length_nil, Nat.add_zero]
      exact ⟨⟨fun _ => by omega, fun _ => hc⟩, by omega⟩
  | cons p rest ih =>
      intro s hall hc hlen
      obtain ⟨hpx, hpy, hpz⟩ := hall p (by simp)
      have hall2 : ∀ q ∈ rest, nanFree q := fun q hq => hall q (by simp [hq])
      have hstep : ingestAll s (p :: rest) =
          ingestAll (s.update p.1 p.2.1 p.2.2.1 p.2.2.2) rest := rfl
      rw [hstep]
      rcases Nat.lt_or_ge (s.calibrationData.length + 1) 60 with hfit | hfull
      · obtain ⟨f1, f2, -, -, -, -⟩ :=
          update_calibrating_append_fields s p.1 p.2.1 p.2.2.1 p.2.2.2 hc hpx hpy hpz hfit
        obtain ⟨i1, i2⟩ := ih (s.update p.1 p.2.1 p.2.2.1 p.2.2.2) hall2 f1
          (by rw [f2]; simp only [List.length_append, List.length_singleton, List.length_nil]; omega)
        rw [f2] at i1 i2
        simp only [List.length_append, List.length_singleton, List.length_nil] at i1 i2
        constructor
        · rw [i1]
          simp only [List.length_cons]
          omega
        · rw [i2]
          simp only [List.length_cons]
          omega
      · obtain ⟨f1, f2, -, -⟩ :=
          update_calibrating_finish_fields s p.1 p.2.1 p.2.2.1 p.2.2.2 hc hpx hpy hpz hfull
        obtain ⟨r1, r2⟩ := ingestAll_ready rest _ f1
        constructor
        · rw [r1]
          simp only [Bool.false_eq_true, false_iff, List.length_cons, not_lt]
          omega
        · rw [r2, f2]
          simp only [List.length_append, List.length_singleton, List.length_nil,
            List.length_cons]
          omega

/-- C5 (confirmed): from a fresh calibration start (flag set, empty buffer),
after fewer than 60 accepted samples the stream is still Calibrating with all
samples buffered; the 60th sample completes calibration, and the completion
happens exactly once: for every longer run the phase stays Ready and the
buffer stays frozen at 60, so finishCalibration is never re-run. -/
theorem C5_calibration_completes_at_sixty (s0 : DataStream)
    (hc : s0.calibrating = true) (hbuf : s0.calibrationData = [])
    (l : List (ℕ × JSNum × JSNum × JSNum)) (hl : ∀ p ∈ l, nanFree p) :
    ((ingestAll s0 l).calibrating = true ↔ l.length < 60) ∧
    (ingestAll s0 l).calibrationData.length = min l.length 60 := by
  have h := calibration_progress l s0 hl hc (by rw [hbuf]; simp)
  rw [hbuf] at h
  simpa using h

/-- C5 witness: a fresh stream fed 60 still samples leaves Calibrating with
exactly the 60 samples buffered (and 59 would not have sufficed, by the
equivalence applied to the length). -/
theorem C5_calibration_completes_at_sixty_witness :
    ((ingestAll (mkStream 1 0) (List.replicate 60 zeroSample)).calibrating = true ↔
      (List.replicate 60 zeroSample).length < 60) ∧
    (ingestAll (mkStream 1 0) (List.replicate 60 zeroSample)).calibrationData.length =
      min (List.replicate 60 zeroSample).length 60 :=
  C5_calibration_completes_at_sixty (mkStream 1 0) rfl rfl
    (List.replicate 60 zeroSample) (by decide)

/-- A run of accepted samples that stays below the 60-sample completion mark
keeps the stream calibrating and never touches the motion level. -/
theorem calibration_keeps_motion :
    ∀ (l : List (ℕ × JSNum × JSNum × JSNum)) (s : DataStream),
    (∀ p ∈ l, nanFree p) → s.calibrating = true →
    s.calibrationData.length + l.length < 60 →
    (ingestAll s l).motion = s.motion ∧ (ingestAll s l).calibrating = true := by
  intro l
  induction l with
  | nil => intro s _ hc _; exact ⟨rfl, hc⟩
  | cons p rest ih =>
      intro s hall hc hlen
      obtain ⟨hpx, hpy, hpz⟩ := hall p (by simp)
      have hall2 : ∀ q ∈ rest, nanFree q := fun q hq => hall q (by simp [hq])
      have hstep : ingestAll s (p :: rest) =
          ingestAll (s.update p.1 p.2.1 p.2.2.1 p.2.2.2) rest := rfl
      rw [hstep]
      simp only [List.length_cons] at hlen
      obtain ⟨f1, f2, f3, -, -, -⟩ :=
        update_calibrating_append_fields s p.1 p.2.1 p.2.2.1 p.2.2.2 hc hpx hpy hpz
          (by omega)
      obtain ⟨g1, g2⟩ := ih (s.update p.1 p.2.1 p.2.2.1 p.2.2.2) hall2 f1
        (by rw [f2]; simp only [List.length_append, List.length_singleton, List.length_nil]; omega)
      exact ⟨g1.trans f3, g2⟩

/-- C8 (amended): explicit recalibration re-enters Calibrating with an empty
buffer, and until the new calibration completes (fewer than 60 accepted
samples) the motion level keeps its pre-recalibration value; the smoothed
values, however, are NOT preserved: while calibrating they track each raw
sample directly. -/
theorem C8_recalibration_preserves_motion :
    (∀ s : DataStream, s.startCalibration.calibrating = true ∧
        s.startCalibration.calibrationData = []) ∧
    (∀ (s : DataStream) (l : List (ℕ × JSNum × JSNum × JSNum)),
        (∀ p ∈ l, nanFree p) → l.length < 60 →
        (ingestAll s.startCalibration l).motion = s.motion ∧
        (ingestAll s.startCalibration l).calibrating = true) ∧
    (∀ (s : DataStream) (now : ℕ) (x y z : JSNum),
        s.calibrating = true → jsIsNaN x = false → jsIsNaN y = false →
        jsIsNaN z = false → s.calibrationData.length + 1 < 60 →
        (s.update now x y z).x = x ∧ (s.update now x y z).y = y ∧
        (s.update now x y z).z = z) := by
  refine ⟨fun s => ⟨rfl, rfl⟩, ?_, ?_⟩
  · intro s l hl hlen
    have h := calibration_keeps_motion l s.startCalibration hl rfl
      (by show ([] : List (JSNum × JSNum × JSNum)).length + l.length < 60; simpa)
    exact ⟨h.1, h.2⟩
  · intro s now x y z hc hx hy hz hlen
    rw [update_calibrating_append s now x y z hc hx hy hz hlen]
    exact ⟨rfl, rfl, rfl⟩

set_option maxRecDepth 200000 in
/-- C8 counterexample: a calibrated stream with smoothed x = 0 re-enters
calibration and ingests one sample with x = 7 (fewer than 60 samples, so the
new calibration has not completed): the smoothed x becomes 7, not the
preserved prior value, refuting the claim that smoothed is retained. -/
theorem C8_smoothed_not_preserved :
    readyS.calibrating = false ∧ (1 : ℕ) < 60 ∧
    (readyS.startCalibration.update 5 (.fin 7) (.fin 7) (.fin 7)).x ≠ readyS.x := by
  with_unfolding_all decide

/-- C8 witness: recalibrating a fresh stream and feeding one sample keeps the
motion level and the Calibrating phase. -/
theorem C8_recalibration_preserves_motion_witness :
    (ingestAll (mkStream 2 0).startCalibration [(1, .fin 3, .fin 4, .fin 5)]).motion =
      (mkStream 2 0).motion ∧
    (ingestAll (mkStream 2 0).startCalibration [(1, .fin 3, .fin 4, .fin 5)]).calibrating =
      true :=
  C8_recalibration_preserves_motion.2.1 (mkStream 2 0) [(1, .fin 3, .fin 4, .fin 5)]
    (by decide) (by decide)

/-- Every run of ingests preserves reachability. -/
theorem reachable_ingestAll (l : List (ℕ × JSNum × JSNum × JSNum)) :
    ∀ s : DataStream, Reachable s → Reachable (ingestAll s l) := by
  induction l with
  | nil => intro s h; exact h
  | cons p rest ih =>
      intro s h
      exact ih _ (Reachable.upd p.1 p.2.1 p.2.2.1 p.2.2.2 h)

/-- C9 (confirmed): in every reachable stream state that is out of
calibration, the thresholds array has exactly six entries, so the
classification scan's reads at indices 0..5 are all in bounds; the flag is
cleared only by finishCalibration, which installs the six-entry array, and the
four-entry default is never read by the scan. -/
theorem C9_ready_thresholds_in_bounds (s : DataStream) (hr : Reachable s) :
    s.calibrating = false →
    s.motionThresholds.length = 6 ∧
    (∀ i, i < 6 → (s.motionThresholds.get? i).isSome = true) := by
  induction hr with
  | mk id now =>
      intro hc
      exact absurd hc (by simp [mkStream])
  | @upd s0 now x y z hr0 ih =>
      intro hc
      by_cases hg : (jsIsNaN x || jsIsNaN y || jsIsNaN z) = true
      · have he : s0.update now x y z = s0 := by
          unfold DataStream.update
          rw [hg]
          rfl
        rw [he] at hc ⊢
        exact ih hc
      · have hgf : (jsIsNaN x || jsIsNaN y || jsIsNaN z) = false :=
          eq_false_of_ne_true hg
        have h3 : (jsIsNaN x = false ∧ jsIsNaN y = false) ∧ jsIsNaN z = false := by
          simpa [Bool.or_eq_false_iff] using hgf
        by_cases hcal : s0.calibrating = true
        · by_cases hfin : 60 ≤ s0.calibrationData.length + 1
          · obtain ⟨-, -, -, f4⟩ :=
              update_calibrating_finish_fields s0 now x y z hcal h3.1.1 h3.1.2 h3.2 hfin
            exact ⟨f4, fun i hi => get?_isSome_of_lt _ _ (by rw [f4]; omega)⟩
          · have f1 := (update_calibrating_append_fields s0 now x y z hcal h3.1.1
              h3.1.2 h3.2 (by omega)).1
            rw [hc] at f1
            exact Bool.noConfusion f1
        · have hc0 : s0.calibrating = false := eq_false_of_ne_true hcal
          have hth := (update_ready_fields s0 now x y z hc0).2.2.1
          rw [hth]
          exact ih hc0
  | @recal s0 hr0 ih =>
      intro hc
      exact absurd hc (by simp [DataStream.startCalibration])

set_option maxRecDepth 200000 in
/-- C9 witness: the fully calibrated 60-ingest chain is reachable, out of
calibration, and carries six in-bounds thresholds. -/
theorem C9_ready_thresholds_in_bounds_witness :
    deepReady.motionThresholds.length = 6 ∧
    (∀ i, i < 6 → (deepReady.motionThresholds.get? i).isSome = true) :=
  C9_ready_thresholds_in_bounds deepReady
    (reachable_ingestAll (List.replicate 60 zeroSample) (mkStream 1 0)
      (Reachable.mk 1 0))
    (by with_unfolding_all decide)

end OskarBit
